import Mathlib

/-!
Verification of the Azure DevOps MCP server (`src/auth.ts`, `src/index.ts`)
against its natural-language specification.  The TypeScript source is
shallowly embedded: each definition below mirrors one function or code
region of the source; JavaScript truthiness on optional strings is made
explicit through `truthy`.
-/

/-- JavaScript truthiness of a `string | undefined` value: `undefined` and
the empty string are falsy, every other string is truthy.  This is the
semantics of `if (x)` for `x : string | undefined` in the source. -/
def truthy : Option String → Bool
  | none => false
  | some s => s ≠ ""

/-- Splits a character list at every occurrence of `sep`; the piece being
accumulated is `acc` (in reverse).  Auxiliary for `jsSplitSpace`. -/
def splitCharsAux (sep : Char) : List Char → List Char → List (List Char)
  | [], acc => [acc.reverse]
  | c :: rest, acc =>
    if c = sep then acc.reverse :: splitCharsAux sep rest []
    else splitCharsAux sep rest (c :: acc)

/-- JavaScript `String.prototype.split(" ")` for a single-character
separator: `""` ↦ `[""]`, `"a b"` ↦ `["a", "b"]`, `"a "` ↦ `["a", ""]`,
adjacent separators produce empty pieces. -/
def jsSplitSpace (s : String) : List String :=
  (splitCharsAux ' ' s.toList []).map (fun cs => String.mk cs)

/-- Embeds `req.headers["authorization"]?.split(" ")[1]` from
`src/index.ts`: optional chaining on the header, JavaScript
`split(" ")`, and index `[1]` yielding `undefined` when the array is
shorter. -/
def bearerToken (authHeader : Option String) : Option String :=
  match authHeader with
  | none => none
  | some h => (jsSplitSpace h).get? 1

/-- Errors thrown by the authentication layer (`throw new Error(...)` in
`src/auth.ts` / `src/index.ts`); the spec's `AuthError` taxonomy. -/
inductive AuthErr
  | authError
  deriving DecidableEq, Repr

/-- One ambient-identity source of the service-credential chain:
`new AzureCliCredential({ tenantId })` or `new DefaultAzureCredential()`
(`src/auth.ts`, case "azcli"/"env"). -/
inductive CredSource
  | azureCli (tenantId : String)
  | defaultCred
  deriving DecidableEq, Repr

/-- The credential backend selected by `createAuthenticator`
(`src/auth.ts`).  `serviceChain` records the source order built with
`ChainedTokenCredential`; `obo` records the confidential-client identity
captured by the closure. -/
inductive Backend
  | serviceChain (sources : List CredSource)
  | external
  | obo (clientId clientSecret : String)
  | interactive
  deriving DecidableEq, Repr

/-- The `options` parameter of `createAuthenticator`
(`{ clientId?: string; clientSecret?: string }`). -/
structure OboOptions where
  clientId : Option String
  clientSecret : Option String
  deriving DecidableEq, Repr

/-- Embeds `createAuthenticator(type, tenantId, options)` from
`src/auth.ts` (the switch over the authentication-type string).  The
returned closure is represented by the `Backend` it would capture;
construction-time `throw` becomes `Except.error`.  In the "azcli"/"env"
case the Azure CLI credential is chained in front of the default
credential exactly when `tenantId && type === "azcli"` (JS truthiness on
`tenantId`); the "obo" case checks
`!options?.clientId || !options?.clientSecret` (truthiness again); every
other string falls to the `default:` interactive case. -/
def createAuthenticator (type : String) (tenantId : Option String)
    (options : Option OboOptions) : Except AuthErr Backend :=
  if type = "azcli" ∨ type = "env" then
    let base := [CredSource.defaultCred]
    let sources :=
      if truthy tenantId ∧ type = "azcli" then
        CredSource.azureCli (tenantId.getD "") :: base
      else base
    Except.ok (Backend.serviceChain sources)
  else if type = "external" then
    Except.ok Backend.external
  else if type = "obo" then
    if truthy (options.bind OboOptions.clientId) = false
        ∨ truthy (options.bind OboOptions.clientSecret) = false then
      Except.error AuthErr.authError
    else
      Except.ok (Backend.obo ((options.bind OboOptions.clientId).getD "")
        ((options.bind OboOptions.clientSecret).getD ""))
  else
    Except.ok Backend.interactive

/-- Modelled from the spec: the external `ChainedTokenCredential` /
`DefaultAzureCredential` collaborator from `@azure/identity` tries its
sources in order and yields the first token obtained, `none` when the
chain is exhausted.  `env` gives each source's outcome. -/
def chainGetToken (env : CredSource → Option String) :
    List CredSource → Option String
  | [] => none
  | s :: rest =>
    match env s with
    | some tok => some tok
    | none => chainGetToken env rest

/-- Embeds the closure returned for the "azcli"/"env" case of
`createAuthenticator` (`src/auth.ts`): awaits `credential.getToken(scopes)`
and throws when no result is produced. -/
def serviceChainAcquire (env : CredSource → Option String)
    (sources : List CredSource) : Except AuthErr String :=
  match chainGetToken env sources with
  | some tok => Except.ok tok
  | none => Except.error AuthErr.authError

/-- Embeds the closure returned for the "external" case of
`createAuthenticator` (`src/auth.ts`): `if (!externalToken) throw ...;
return externalToken;` — note the truthiness check rejects the empty
string as well as `undefined`. -/
def externalAcquire (externalToken : Option String) : Except AuthErr String :=
  match externalToken with
  | none => Except.error AuthErr.authError
  | some s => if s = "" then Except.error AuthErr.authError else Except.ok s

/-- Embeds the closure returned for the "obo" case of `createAuthenticator`
(`src/auth.ts`): `if (!externalToken) throw ...; return
obo.getTokenOnBehalfOf(externalToken);`.  The upstream exchange (the
confidential-client round trip, including service-credential validity) is
the parameter `exchange`. -/
def oboAcquire (exchange : String → Except AuthErr String)
    (externalToken : Option String) : Except AuthErr String :=
  match externalToken with
  | none => Except.error AuthErr.authError
  | some s => if s = "" then Except.error AuthErr.authError else exchange s

/-- Embeds the wrapper installed in `main` (`src/index.ts`):
`authenticator = async (userAssertion?) => { if (userAssertion) return
originalAuthenticator(userAssertion); if (externalToken) return
originalAuthenticator(externalToken); return originalAuthenticator(); }`.
The value returned is the assertion argument forwarded to the wrapped
backend (`none` = called with no assertion). -/
def wrappedAuthenticator (externalToken : Option String)
    (userAssertion : Option String) : Option String :=
  if truthy userAssertion then userAssertion
  else if truthy externalToken then externalToken
  else none

/-! ### The HTTP dispatcher (`app.post("/mcp")` in `src/index.ts`) -/

/-- The authentication mode selected at startup
(`argv.authentication`). -/
inductive AuthMode
  | interactive
  | azcli
  | env
  | external
  | obo
  deriving DecidableEq, Repr

/-- A parsed JSON request body; only the `method` property matters to the
dispatcher. -/
structure JsonBody where
  method : Option String
  deriving DecidableEq, Repr

/-- Embeds `isInitializeBody(body)` from `src/index.ts`:
`body && body.method === "initialize"` (a `null`/absent body is falsy). -/
def isInitializeBody : Option JsonBody → Bool
  | none => false
  | some b => b.method = some "initialize"

/-- An inbound `POST /mcp` request: the `mcp-session-id` header, the
`Authorization` header, and the parsed JSON body. -/
structure HttpRequest where
  sessionHeader : Option String
  authHeader : Option String
  body : Option JsonBody
  deriving DecidableEq, Repr

/-- Association-list lookup for the `transports` record
(`transports[sessionId]`); transports are identified by numeric ids. -/
def lookupReg : List (String × Nat) → String → Option Nat
  | [], _ => none
  | (k, v) :: rest, sid => if k = sid then some v else lookupReg rest sid

/-- JS `delete transports[sid]`: removes the key entirely. -/
def eraseReg : List (String × Nat) → String → List (String × Nat)
  | [], _ => []
  | e :: rest, sid =>
    if e.1 = sid then eraseReg rest sid else e :: eraseReg rest sid

/-- JS property assignment `transports[sessionId] = transport`:
overwrites any entry under the same key. -/
def insertReg (reg : List (String × Nat)) (sid : String) (tid : Nat) :
    List (String × Nat) :=
  (sid, tid) :: eraseReg reg sid

/-- The mutable state the `POST /mcp` handler touches: the
`transports` registry, the module-level `externalToken` field, and a
counter supplying the next fresh transport object id. -/
structure ServerState where
  transports : List (String × Nat)
  externalToken : Option String
  nextTransportId : Nat
  deriving DecidableEq, Repr

/-- The observable outcome of one `POST /mcp` request:
`oboReject` is the plain 400 `{"error": "User token required for OBO
authentication"}`; `protocolReject` is the 400 JSON-RPC error (with its
code and whether `id` is `null`); `handled tid` means the frame was passed
to `transport.handleRequest` on transport `tid` and the response was
produced; `failed tid` means `handleRequest` on transport `tid` threw and
the error propagated (after the `finally` block ran). -/
inductive PostResponse
  | oboReject
  | protocolReject (code : Int) (idIsNull : Bool)
  | handled (tid : Nat)
  | failed (tid : Nat)
  deriving DecidableEq, Repr

/-- The routing decision of the dispatcher (`src/index.ts`):
`if (sessionId && transports[sessionId])` reuse that transport;
`else if (!sessionId && isInitializeBody(req.body))` establish a new
session; `else` reject with the -32000 protocol error.  Note both
conditions use JS truthiness on the header string. -/
inductive RouteOutcome
  | reuse (tid : Nat)
  | establish
  | reject
  deriving DecidableEq, Repr

/-- See `RouteOutcome`; the decision as a function of the registry, the
`mcp-session-id` header and the body. -/
def routeDecision (transports : List (String × Nat))
    (sessionHeader : Option String) (body : Option JsonBody) : RouteOutcome :=
  if truthy sessionHeader then
    match lookupReg transports (sessionHeader.getD "") with
    | some tid => RouteOutcome.reuse tid
    | none => RouteOutcome.reject
  else if isInitializeBody body then RouteOutcome.establish
  else RouteOutcome.reject

/-- Embeds the tail of the handler:
`try { await transport.handleRequest(req, res, req.body); } finally {
if (argv.authentication === "obo") externalToken = undefined; }`.
`throws` says whether the downstream handling threw. -/
def finishRequest (mode : AuthMode) (throws : Bool) (tid : Nat)
    (st : ServerState) : PostResponse × ServerState :=
  let st' := if mode = AuthMode.obo then { st with externalToken := none } else st
  ((if throws then PostResponse.failed tid else PostResponse.handled tid), st')

/-- Embeds the whole `app.post("/mcp", ...)` handler (`src/index.ts`).
In order: identity extraction (external mode stores the bearer value in
`externalToken`; obo mode rejects with a plain 400 when the bearer value
is falsy, else stores it), then the routing decision, then
`handleRequest` under the `finally` clearing.  On the establish path the
new transport is `st.nextTransportId` and `gensid` is the session id
produced by `crypto.randomUUID()` and registered by the
`onsessioninitialized` callback.  The `-32000` rejection `return`s before
the `try`/`finally`, so no clearing happens on that path. -/
def handlePost (mode : AuthMode) (throws : Bool) (gensid : String)
    (st : ServerState) (req : HttpRequest) : PostResponse × ServerState :=
  let tok := bearerToken req.authHeader
  let st1 := if mode = AuthMode.external then { st with externalToken := tok } else st
  if mode = AuthMode.obo ∧ truthy tok = false then
    (PostResponse.oboReject, st1)
  else
    let st2 := if mode = AuthMode.obo then { st1 with externalToken := tok } else st1
    match routeDecision st2.transports req.sessionHeader req.body with
    | RouteOutcome.reuse tid => finishRequest mode throws tid st2
    | RouteOutcome.establish =>
        let tid := st2.nextTransportId
        let st3 := { st2 with
          transports := insertReg st2.transports gensid tid,
          nextTransportId := tid + 1 }
        finishRequest mode throws tid st3
    | RouteOutcome.reject => (PostResponse.protocolReject (-32000) true, st2)

/-! ### The interactive delegated backend (`OAuthAuthenticator` in
`src/auth.ts`) -/

/-- An MSAL `AuthenticationResult`: the access token string (empty models
a falsy token, caught by `if (!authResult.accessToken)`) and the
`account` field (`AccountInfo | null`, accounts as opaque ids). -/
structure AuthResult where
  accessToken : String
  account : Option Nat
  deriving DecidableEq, Repr

/-- The identity-provider environment for one `getToken` call:
what `acquireTokenSilent` would do if attempted (throw, resolve `null`,
or resolve a result) and what `acquireTokenInteractive` would do if
attempted (throw or resolve a result). -/
structure MsalEnv where
  silent : Except Unit (Option AuthResult)
  interactive : Except Unit AuthResult
  deriving Repr

/-- How a `getToken` call ends: the token, the explicit
`throw new Error("Failed to obtain Azure DevOps OAuth token.")` when the
flow completes without a usable access token, or an error propagated from
the interactive MSAL call itself. -/
inductive OAuthOutcome
  | token (t : String)
  | authError
  | upstreamError
  deriving DecidableEq, Repr

/-- Full record of one `OAuthAuthenticator.getToken` call: its outcome,
the cached `accountId` afterwards, how often each MSAL flow was invoked,
and the `authResult` the final token check was applied to (`none` when the
call aborted inside the interactive flow). -/
structure GetTokenTrace where
  outcome : OAuthOutcome
  accountAfter : Option Nat
  silentCalls : Nat
  interactiveCalls : Nat
  finalAuthResult : Option AuthResult
  deriving DecidableEq, Repr

/-- Embeds `OAuthAuthenticator.getToken` (`src/auth.ts`): when an
`accountId` is cached, try `acquireTokenSilent` and swallow any exception
(`catch { authResult = null; }`); when no result was obtained, run
`acquireTokenInteractive` and cache its `account`; finally throw unless
the chosen result carries a truthy `accessToken`. -/
def getToken (accountId : Option Nat) (env : MsalEnv) : GetTokenTrace :=
  let silentCalls := if accountId.isSome then 1 else 0
  let silentResult : Option AuthResult :=
    match accountId with
    | none => none
    | some _ =>
      match env.silent with
      | Except.ok r => r
      | Except.error _ => none
  match silentResult with
  | some r =>
    { outcome := if r.accessToken = "" then OAuthOutcome.authError
        else OAuthOutcome.token r.accessToken
      accountAfter := accountId
      silentCalls := silentCalls
      interactiveCalls := 0
      finalAuthResult := some r }
  | none =>
    match env.interactive with
    | Except.error _ =>
      { outcome := OAuthOutcome.upstreamError
        accountAfter := accountId
        silentCalls := silentCalls
        interactiveCalls := 1
        finalAuthResult := none }
    | Except.ok r =>
      { outcome := if r.accessToken = "" then OAuthOutcome.authError
          else OAuthOutcome.token r.accessToken
        accountAfter := r.account
        silentCalls := silentCalls
        interactiveCalls := 1
        finalAuthResult := some r }

/-! ### Session lifecycle (`transports` registry, `onsessioninitialized`
and `transport.onclose` in `src/index.ts`) -/

/-- Registry-relevant events: `init tid sid` is the SDK firing
`onsessioninitialized(sid)` on transport `tid` (after setting
`transport.sessionId = sid`), whose handler runs
`transports[sid] = transport`; `close tid` is the SDK firing
`transport.onclose` on transport `tid`, whose handler runs
`if (transport.sessionId) delete transports[transport.sessionId]`;
`request sid` is a request routed to an existing session, whose handling
code contains no registry mutation. -/
inductive SessEvent
  | init (tid : Nat) (sid : String)
  | close (tid : Nat)
  | request (sid : String)
  deriving DecidableEq, Repr

/-- The registry together with each transport's assigned
`transport.sessionId` (an association list, most recent first). -/
structure SessState where
  transports : List (String × Nat)
  assigned : List (Nat × String)
  deriving DecidableEq, Repr

/-- Lookup of a transport's assigned session id
(`transport.sessionId`). -/
def lookupAssigned : List (Nat × String) → Nat → Option String
  | [], _ => none
  | (k, v) :: rest, tid => if k = tid then some v else lookupAssigned rest tid

/-- One event's effect on the session state, mirroring the three handlers
described at `SessEvent`. -/
def sessStep (st : SessState) : SessEvent → SessState
  | SessEvent.init tid sid =>
    { transports := insertReg st.transports sid tid
      assigned := (tid, sid) :: st.assigned }
  | SessEvent.close tid =>
    { st with transports :=
        match lookupAssigned st.assigned tid with
        | some sid => eraseReg st.transports sid
        | none => st.transports }
  | SessEvent.request _ => st

/-- Folds a list of events over the session state. -/
def sessRun (st : SessState) (es : List SessEvent) : SessState :=
  es.foldl sessStep st

/-! ### Registry lemmas -/

theorem lookupReg_eraseReg_self (reg : List (String × Nat)) (sid : String) :
    lookupReg (eraseReg reg sid) sid = none := by
  induction reg with
  | nil => rfl
  | cons e rest ih =>
    by_cases he : e.1 = sid
    · simp [eraseReg, he, ih]
    · simp [eraseReg, he, lookupReg, ih]

theorem lookupReg_eraseReg_ne (reg : List (String × Nat)) (sid s : String)
    (h : s ≠ sid) : lookupReg (eraseReg reg sid) s = lookupReg reg s := by
  induction reg with
  | nil => rfl
  | cons e rest ih =>
    by_cases he : e.1 = sid
    · simp [eraseReg, he, lookupReg, ih, Ne.symm h]
    · by_cases hs : e.1 = s
      · simp [eraseReg, he, lookupReg, hs, h]
      · simp [eraseReg, he, lookupReg, hs, ih]

theorem lookupReg_insertReg_self (reg : List (String × Nat)) (g : String) (t : Nat) :
    lookupReg (insertReg reg g t) g = some t := by
  simp [insertReg, lookupReg]

theorem lookupReg_insertReg_ne (reg : List (String × Nat)) (g : String) (t : Nat)
    (s : String) (h : g ≠ s) : lookupReg (insertReg reg g t) s = lookupReg reg s := by
  simp [insertReg, lookupReg, h, lookupReg_eraseReg_ne reg g s (Ne.symm h)]

theorem lookupReg_eraseReg_none (reg : List (String × Nat)) (x s : String)
    (h : lookupReg reg s = none) : lookupReg (eraseReg reg x) s = none := by
  by_cases hx : s = x
  · simp [hx, lookupReg_eraseReg_self]
  · simp [lookupReg_eraseReg_ne reg x s hx, h]

/-! ### Characterization of `routeDecision` and `handlePost` -/

theorem routeDecision_reuse (reg : List (String × Nat)) (s : String)
    (body : Option JsonBody) (tid : Nat) (hne : s ≠ "")
    (hlook : lookupReg reg s = some tid) :
    routeDecision reg (some s) body = RouteOutcome.reuse tid := by
  simp [routeDecision, truthy, hne, hlook]

theorem routeDecision_establish (reg : List (String × Nat))
    (sh : Option String) (body : Option JsonBody)
    (h1 : truthy sh = false) (h2 : isInitializeBody body = true) :
    routeDecision reg sh body = RouteOutcome.establish := by
  simp [routeDecision, h1, h2]

theorem routeDecision_reject (reg : List (String × Nat)) (sh : Option String)
    (body : Option JsonBody)
    (h1 : ∀ s, sh = some s → s ≠ "" → lookupReg reg s = none)
    (h2 : truthy sh = true ∨ isInitializeBody body = false) :
    routeDecision reg sh body = RouteOutcome.reject := by
  by_cases ht : truthy sh = true
  · match sh, ht with
    | some s, ht =>
      have hne : s ≠ "" := by simpa [truthy] using ht
      simp [routeDecision, truthy, hne, h1 s rfl hne]
  · have ht' : truthy sh = false := by simpa using ht
    rcases h2 with h2 | h2
    · exact absurd h2 ht
    · simp [routeDecision, ht', h2]

theorem handlePost_oboReject (throws : Bool) (gensid : String)
    (st : ServerState) (req : HttpRequest)
    (h : truthy (bearerToken req.authHeader) = false) :
    handlePost AuthMode.obo throws gensid st req = (PostResponse.oboReject, st) := by
  simp [handlePost, h]

theorem handlePost_fst (mode : AuthMode) (throws : Bool) (gensid : String)
    (st : ServerState) (req : HttpRequest)
    (hcond : ¬(mode = AuthMode.obo ∧ truthy (bearerToken req.authHeader) = false)) :
    (handlePost mode throws gensid st req).1 =
      match routeDecision st.transports req.sessionHeader req.body with
      | RouteOutcome.reuse tid =>
        if throws then PostResponse.failed tid else PostResponse.handled tid
      | RouteOutcome.establish =>
        if throws then PostResponse.failed st.nextTransportId
        else PostResponse.handled st.nextTransportId
      | RouteOutcome.reject => PostResponse.protocolReject (-32000) true := by
  have htok : mode = AuthMode.obo → truthy (bearerToken req.authHeader) = true := by
    intro hm
    cases hb : truthy (bearerToken req.authHeader)
    · exact absurd ⟨hm, hb⟩ hcond
    · rfl
  cases mode <;>
    cases hroute : routeDecision st.transports req.sessionHeader req.body <;>
    first
      | simp [handlePost, finishRequest, hroute, htok rfl]
      | simp [handlePost, finishRequest, hroute]

theorem handlePost_transports (mode : AuthMode) (throws : Bool) (gensid : String)
    (st : ServerState) (req : HttpRequest)
    (hcond : ¬(mode = AuthMode.obo ∧ truthy (bearerToken req.authHeader) = false)) :
    (handlePost mode throws gensid st req).2.transports =
      match routeDecision st.transports req.sessionHeader req.body with
      | RouteOutcome.establish => insertReg st.transports gensid st.nextTransportId
      | _ => st.transports := by
  have htok : mode = AuthMode.obo → truthy (bearerToken req.authHeader) = true := by
    intro hm
    cases hb : truthy (bearerToken req.authHeader)
    · exact absurd ⟨hm, hb⟩ hcond
    · rfl
  cases mode <;>
    cases hroute : routeDecision st.transports req.sessionHeader req.body <;>
    first
      | simp [handlePost, finishRequest, hroute, htok rfl]
      | simp [handlePost, finishRequest, hroute]

theorem handlePost_nextTransportId (mode : AuthMode) (throws : Bool)
    (gensid : String) (st : ServerState) (req : HttpRequest)
    (hcond : ¬(mode = AuthMode.obo ∧ truthy (bearerToken req.authHeader) = false)) :
    (handlePost mode throws gensid st req).2.nextTransportId =
      match routeDecision st.transports req.sessionHeader req.body with
      | RouteOutcome.establish => st.nextTransportId + 1
      | _ => st.nextTransportId := by
  have htok : mode = AuthMode.obo → truthy (bearerToken req.authHeader) = true := by
    intro hm
    cases hb : truthy (bearerToken req.authHeader)
    · exact absurd ⟨hm, hb⟩ hcond
    · rfl
  cases mode <;>
    cases hroute : routeDecision st.transports req.sessionHeader req.body <;>
    first
      | simp [handlePost, finishRequest, hroute, htok rfl]
      | simp [handlePost, finishRequest, hroute]

theorem handlePost_externalToken (mode : AuthMode) (throws : Bool)
    (gensid : String) (st : ServerState) (req : HttpRequest)
    (hcond : ¬(mode = AuthMode.obo ∧ truthy (bearerToken req.authHeader) = false)) :
    (handlePost mode throws gensid st req).2.externalToken =
      if mode = AuthMode.external then bearerToken req.authHeader
      else if mode = AuthMode.obo then
        match routeDecision st.transports req.sessionHeader req.body with
        | RouteOutcome.reject => bearerToken req.authHeader
        | _ => none
      else st.externalToken := by
  have htok : mode = AuthMode.obo → truthy (bearerToken req.authHeader) = true := by
    intro hm
    cases hb : truthy (bearerToken req.authHeader)
    · exact absurd ⟨hm, hb⟩ hcond
    · rfl
  cases mode <;>
    cases hroute : routeDecision st.transports req.sessionHeader req.body <;>
    first
      | simp [handlePost, finishRequest, hroute, htok rfl]
      | simp [handlePost, finishRequest, hroute]

/-- Preservation of absence: processing further events never resurrects a
registry entry for `sid`, provided no later `onsessioninitialized` fires
with that same session id (guaranteed in the source by
`crypto.randomUUID()` freshness). -/
theorem sessRun_preserves_absent (es : List SessEvent) (st : SessState)
    (sid : String) (h : lookupReg st.transports sid = none)
    (hno : ∀ tid', SessEvent.init tid' sid ∉ es) :
    lookupReg (sessRun st es).transports sid = none := by
  induction es generalizing st with
  | nil => exact h
  | cons e rest ih =>
    have hrest : ∀ tid', SessEvent.init tid' sid ∉ rest :=
      fun tid' hm => hno tid' (List.mem_cons_of_mem e hm)
    have hstep : lookupReg (sessStep st e).transports sid = none := by
      cases e with
      | init tid' sid' =>
        have hne : sid' ≠ sid := by
          intro hh
          exact hno tid' (by rw [hh]; exact List.mem_cons_self _ _)
        simpa [sessStep, lookupReg_insertReg_ne st.transports sid' tid' sid hne]
          using h
      | close tid' =>
        cases ha : lookupAssigned st.assigned tid' with
        | none => simpa [sessStep, ha] using h
        | some sid2 =>
          simpa [sessStep, ha] using
            lookupReg_eraseReg_none st.transports sid2 sid h
      | request s => simpa [sessStep] using h
    exact ih (sessStep st e) hstep hrest

/-! ### Claims -/

/-- C1, counterexample.  The claim says the transient `externalToken`
field is cleared once the response has been produced or the call has
failed, for every POST handled in external or on-behalf-of mode.  The
code refutes it twice: (a) in external mode a routed request leaves the
bearer token in the field after its response is produced (the `finally`
block clears only under `argv.authentication === "obo"`); (b) in obo mode
the `-32000` rejection `return`s before the `try`/`finally`, so the token
set by that request also survives the call. -/
theorem claim_C1_counterexample :
    (handlePost AuthMode.external false "g" ⟨[("s", 0)], none, 1⟩
        ⟨some "s", some "Bearer T", none⟩).1 = PostResponse.handled 0 ∧
    (handlePost AuthMode.external false "g" ⟨[("s", 0)], none, 1⟩
        ⟨some "s", some "Bearer T", none⟩).2.externalToken = some "T" ∧
    (handlePost AuthMode.obo false "g" ⟨[], some "OLD", 0⟩
        ⟨some "x", some "Bearer T", none⟩).1 =
      PostResponse.protocolReject (-32000) true ∧
    (handlePost AuthMode.obo false "g" ⟨[], some "OLD", 0⟩
        ⟨some "x", some "Bearer T", none⟩).2.externalToken = some "T" ∧
    (some "T" : Option String) ≠ none := by
  refine ⟨rfl, by decide, by decide, by decide, by simp⟩

/-- C1, amended.  In on-behalf-of mode the transient field is cleared
after the frame was routed to a session, whether the downstream handling
produced a response or threw; it is NOT cleared when the request is
rejected with the `-32000` protocol error, where the just-set bearer
token remains; and in external mode the field is never cleared after the
call — each external request instead overwrites it at identity-extraction
time with its own bearer value. -/
theorem claim_C1_amended (throws : Bool) (gensid : String) (st : ServerState)
    (req : HttpRequest) :
    (∀ tid,
      ((handlePost AuthMode.obo throws gensid st req).1 = PostResponse.handled tid ∨
       (handlePost AuthMode.obo throws gensid st req).1 = PostResponse.failed tid) →
      (handlePost AuthMode.obo throws gensid st req).2.externalToken = none) ∧
    ((handlePost AuthMode.obo throws gensid st req).1 =
        PostResponse.protocolReject (-32000) true →
      (handlePost AuthMode.obo throws gensid st req).2.externalToken =
        bearerToken req.authHeader) ∧
    ((handlePost AuthMode.external throws gensid st req).2.externalToken =
      bearerToken req.authHeader) := by
  refine ⟨?_, ?_, ?_⟩
  · intro tid h
    by_cases htok : truthy (bearerToken req.authHeader) = false
    · rw [handlePost_oboReject throws gensid st req htok] at h
      rcases h with h | h <;> exact absurd h (by simp)
    · have hcond : ¬(AuthMode.obo = AuthMode.obo ∧
          truthy (bearerToken req.authHeader) = false) := fun hc => htok hc.2
      rw [handlePost_externalToken AuthMode.obo throws gensid st req hcond]
      rw [handlePost_fst AuthMode.obo throws gensid st req hcond] at h
      cases hroute : routeDecision st.transports req.sessionHeader req.body <;>
        simp [hroute] at h ⊢
  · intro h
    by_cases htok : truthy (bearerToken req.authHeader) = false
    · rw [handlePost_oboReject throws gensid st req htok] at h
      exact absurd h (by simp)
    · have hcond : ¬(AuthMode.obo = AuthMode.obo ∧
          truthy (bearerToken req.authHeader) = false) := fun hc => htok hc.2
      rw [handlePost_externalToken AuthMode.obo throws gensid st req hcond]
      rw [handlePost_fst AuthMode.obo throws gensid st req hcond] at h
      cases hroute : routeDecision st.transports req.sessionHeader req.body <;>
        simp [hroute] at h ⊢ <;> cases throws <;> simp_all
  · rw [handlePost_externalToken AuthMode.external throws gensid st req (by simp)]
    simp

/-- C1, witness for the amended theorem at concrete inputs: an obo-mode
routed request ends with the field cleared; an external-mode request ends
with the field holding its own bearer value. -/
theorem claim_C1_witness :
    (handlePost AuthMode.obo false "g" ⟨[("s", 0)], some "X", 1⟩
        ⟨some "s", some "Bearer T", none⟩).2.externalToken = none ∧
    (handlePost AuthMode.external false "g" ⟨[("s", 0)], none, 1⟩
        ⟨some "s", some "Bearer T", none⟩).2.externalToken =
      bearerToken (some "Bearer T") :=
  ⟨(claim_C1_amended false "g" ⟨[("s", 0)], some "X", 1⟩
      ⟨some "s", some "Bearer T", none⟩).1 0 (Or.inl (by decide)),
   (claim_C1_amended false "g" ⟨[("s", 0)], none, 1⟩
      ⟨some "s", some "Bearer T", none⟩).2.2⟩

/-- C2, counterexample.  The claim says an explicit assertion passed by
the caller is always forwarded to the backend.  Passing the empty string
is passing an explicit assertion, yet `if (userAssertion)` is falsy on
it, so the wrapper forwards the transient external token instead. -/
theorem claim_C2_counterexample :
    wrappedAuthenticator (some "T") (some "") = some "T" ∧
    (some "T" : Option String) ≠ some "" := by
  constructor
  · rfl
  · simp

/-- C2, amended.  Per call of the wrapped authenticator: a NON-EMPTY
explicit assertion is forwarded to the backend; else a set and non-empty
transient external token is forwarded; else the backend is called with no
assertion (empty strings count as absent, per JS truthiness). -/
theorem claim_C2_amended (externalToken userAssertion : Option String) :
    (truthy userAssertion = true →
      wrappedAuthenticator externalToken userAssertion = userAssertion) ∧
    (truthy userAssertion = false → truthy externalToken = true →
      wrappedAuthenticator externalToken userAssertion = externalToken) ∧
    (truthy userAssertion = false → truthy externalToken = false →
      wrappedAuthenticator externalToken userAssertion = none) := by
  refine ⟨fun h1 => by simp [wrappedAuthenticator, h1],
    fun h1 h2 => by simp [wrappedAuthenticator, h1, h2],
    fun h1 h2 => by simp [wrappedAuthenticator, h1, h2]⟩

/-- C2, witness for the amended theorem: the three resolution cases at
concrete tokens. -/
theorem claim_C2_witness :
    wrappedAuthenticator (some "EXT") (some "A") = some "A" ∧
    wrappedAuthenticator (some "EXT") none = some "EXT" ∧
    wrappedAuthenticator none none = none :=
  ⟨(claim_C2_amended (some "EXT") (some "A")).1 (by decide),
   (claim_C2_amended (some "EXT") none).2.1 (by decide) (by decide),
   (claim_C2_amended none none).2.2 (by decide) (by decide)⟩

/-- C3, counterexample.  The claim says a POST whose session header names
no registered session is rejected with `-32000`.  A present-but-empty
`mcp-session-id` header is falsy in JS, so with an initialize body the
dispatcher establishes a NEW session instead of rejecting. -/
theorem claim_C3_counterexample :
    (handlePost AuthMode.interactive false "fresh" ⟨[], none, 0⟩
        ⟨some "", none, some ⟨some "initialize"⟩⟩).1 = PostResponse.handled 0 ∧
    PostResponse.handled 0 ≠ PostResponse.protocolReject (-32000) true := by
  refine ⟨by decide, by simp⟩

/-- C3, amended.  For frames that pass identity extraction: a NON-EMPTY
session header naming a registered session routes to that transport
regardless of body shape; an absent-or-empty header with an initialize
body establishes a new session (registered under the generated id); in
every other case the dispatcher answers the 400 JSON-RPC error with code
`-32000` and null id, and the registry is unchanged. -/
theorem claim_C3_amended (mode : AuthMode) (throws : Bool) (gensid : String)
    (st : ServerState) (req : HttpRequest)
    (hauth : ¬(mode = AuthMode.obo ∧ truthy (bearerToken req.authHeader) = false)) :
    (∀ s tid, req.sessionHeader = some s → s ≠ "" →
      lookupReg st.transports s = some tid →
      (handlePost mode throws gensid st req).1 =
        if throws then PostResponse.failed tid else PostResponse.handled tid) ∧
    (truthy req.sessionHeader = false → isInitializeBody req.body = true →
      (handlePost mode throws gensid st req).1 =
        (if throws then PostResponse.failed st.nextTransportId
          else PostResponse.handled st.nextTransportId) ∧
      lookupReg (handlePost mode throws gensid st req).2.transports gensid =
        some st.nextTransportId) ∧
    ((∀ s, req.sessionHeader = some s → s ≠ "" →
        lookupReg st.transports s = none) →
      (truthy req.sessionHeader = true ∨ isInitializeBody req.body = false) →
      (handlePost mode throws gensid st req).1 =
        PostResponse.protocolReject (-32000) true ∧
      (handlePost mode throws gensid st req).2.transports = st.transports) := by
  refine ⟨?_, ?_, ?_⟩
  · rintro s tid hs hne hlook
    rw [handlePost_fst mode throws gensid st req hauth, hs,
      routeDecision_reuse st.transports s req.body tid hne hlook]
  · intro h1 h2
    have hroute := routeDecision_establish st.transports req.sessionHeader req.body h1 h2
    refine ⟨?_, ?_⟩
    · rw [handlePost_fst mode throws gensid st req hauth, hroute]
    · rw [handlePost_transports mode throws gensid st req hauth, hroute]
      exact lookupReg_insertReg_self st.transports gensid st.nextTransportId
  · intro h1 h2
    have hroute := routeDecision_reject st.transports req.sessionHeader req.body h1 h2
    refine ⟨?_, ?_⟩
    · rw [handlePost_fst mode throws gensid st req hauth, hroute]
    · rw [handlePost_transports mode throws gensid st req hauth, hroute]

/-- C3, witness for the amended theorem: reuse, establish and reject at
concrete requests. -/
theorem claim_C3_witness :
    (handlePost AuthMode.interactive false "fresh" ⟨[("abc", 7)], none, 8⟩
        ⟨some "abc", none, none⟩).1 = PostResponse.handled 7 ∧
    ((handlePost AuthMode.interactive false "fresh" ⟨[], none, 0⟩
        ⟨none, none, some ⟨some "initialize"⟩⟩).1 = PostResponse.handled 0 ∧
     lookupReg (handlePost AuthMode.interactive false "fresh" ⟨[], none, 0⟩
        ⟨none, none, some ⟨some "initialize"⟩⟩).2.transports "fresh" = some 0) ∧
    (handlePost AuthMode.interactive false "fresh" ⟨[], none, 0⟩
        ⟨some "zzz", none, some ⟨some "initialize"⟩⟩).1 =
      PostResponse.protocolReject (-32000) true := by
  refine ⟨?_, ?_, ?_⟩
  · exact (claim_C3_amended AuthMode.interactive false "fresh" ⟨[("abc", 7)], none, 8⟩
      ⟨some "abc", none, none⟩ (by simp)).1 "abc" 7 rfl (by decide) (by decide)
  · exact (claim_C3_amended AuthMode.interactive false "fresh" ⟨[], none, 0⟩
      ⟨none, none, some ⟨some "initialize"⟩⟩ (by simp)).2.1 (by decide) (by decide)
  · exact ((claim_C3_amended AuthMode.interactive false "fresh" ⟨[], none, 0⟩
      ⟨some "zzz", none, some ⟨some "initialize"⟩⟩ (by simp)).2.2
      (by intro s hs hne; cases hs; rfl) (Or.inl (by decide))).1

/-- C4 (confirmed).  The OnBehalfOfExchange backend: construction fails
with `AuthError` when `clientId` or `clientSecret` is missing, and the
per-call acquire with no user assertion fails with `AuthError` for every
possible upstream exchange behaviour, i.e. regardless of
service-credential validity. -/
theorem claim_C4_obo_errors :
    (∀ (tenantId : Option String) (opts : Option OboOptions),
      opts.bind OboOptions.clientId = none ∨
        opts.bind OboOptions.clientSecret = none →
      createAuthenticator "obo" tenantId opts = Except.error AuthErr.authError) ∧
    (∀ exchange : String → Except AuthErr String,
      oboAcquire exchange none = Except.error AuthErr.authError) := by
  constructor
  · intro tenantId opts h
    rcases h with h | h <;> simp [createAuthenticator, h, truthy]
  · intro exchange
    rfl

/-- C4, witness: a construction with `clientId` missing fails; an acquire
with no assertion fails even under an always-succeeding exchange. -/
theorem claim_C4_witness :
    createAuthenticator "obo" (some "t") (some ⟨none, some "sec"⟩) =
      Except.error AuthErr.authError ∧
    oboAcquire (fun s => Except.ok (s ++ "X")) none =
      Except.error AuthErr.authError :=
  ⟨claim_C4_obo_errors.1 (some "t") (some ⟨none, some "sec"⟩) (Or.inl rfl),
   claim_C4_obo_errors.2 _⟩

/-- C5, counterexample.  The claim says a supplied `userAssertion` is
returned unchanged.  Supplying the empty string is a supplied assertion,
yet `if (!externalToken)` throws on it instead of returning it. -/
theorem claim_C5_counterexample :
    externalAcquire (some "") = Except.error AuthErr.authError ∧
    externalAcquire (some "") ≠ Except.ok "" := by
  constructor
  · rfl
  · simp [externalAcquire]

/-- C5, amended.  The ExternalPassthrough backend returns a NON-EMPTY
supplied assertion unchanged, and fails with `AuthError` when the
assertion is absent or empty. -/
theorem claim_C5_amended (t : Option String) :
    (∀ s, t = some s → s ≠ "" → externalAcquire t = Except.ok s) ∧
    (t = none ∨ t = some "" →
      externalAcquire t = Except.error AuthErr.authError) := by
  constructor
  · rintro s rfl hs
    simp [externalAcquire, hs]
  · rintro (rfl | rfl) <;> simp [externalAcquire]

/-- C5, witness for the amended theorem at concrete tokens. -/
theorem claim_C5_witness :
    externalAcquire (some "tok") = Except.ok "tok" ∧
    externalAcquire none = Except.error AuthErr.authError :=
  ⟨(claim_C5_amended (some "tok")).1 "tok" rfl (by decide),
   (claim_C5_amended none).2 (Or.inl rfl)⟩

/-- C6 (confirmed).  InteractiveDelegated: with no cached account the
interactive flow runs (once) and its account is cached; with a cached
account the silent refresh is attempted first and a silent success
invokes no interactive flow; any silent failure (exception or null
result) falls back to interactive exactly once in that call; and the
dedicated `AuthError` is thrown only when the flow completed and the
chosen result carried no usable access token. -/
theorem claim_C6_interactive_flow :
    (∀ env : MsalEnv,
      (getToken none env).silentCalls = 0 ∧
        (getToken none env).interactiveCalls = 1) ∧
    (∀ (env : MsalEnv) (r : AuthResult), env.interactive = Except.ok r →
      (getToken none env).accountAfter = r.account) ∧
    (∀ (a : Nat) (env : MsalEnv), (getToken (some a) env).silentCalls = 1) ∧
    (∀ (a : Nat) (env : MsalEnv) (r : AuthResult),
      env.silent = Except.ok (some r) →
      (getToken (some a) env).interactiveCalls = 0) ∧
    (∀ (a : Nat) (env : MsalEnv),
      env.silent = Except.error () ∨ env.silent = Except.ok none →
      (getToken (some a) env).interactiveCalls = 1) ∧
    (∀ (acc : Option Nat) (env : MsalEnv),
      (getToken acc env).outcome = OAuthOutcome.authError →
      ∃ r, (getToken acc env).finalAuthResult = some r ∧ r.accessToken = "") := by
  refine ⟨?_, ?_, ?_, ?_, ?_, ?_⟩
  · intro env
    cases hi : env.interactive <;> simp [getToken, hi]
  · intro env r hi
    simp [getToken, hi]
  · intro a env
    cases hs : env.silent with
    | error e => cases hi : env.interactive <;> simp [getToken, hs, hi]
    | ok ro =>
      cases ro with
      | none => cases hi : env.interactive <;> simp [getToken, hs, hi]
      | some r => simp [getToken, hs]
  · intro a env r hs
    simp [getToken, hs]
  · intro a env h
    rcases h with h | h <;> cases hi : env.interactive <;> simp [getToken, h, hi]
  · intro acc env h
    cases acc with
    | none =>
      cases hi : env.interactive with
      | error e => simp [getToken, hi] at h
      | ok r =>
        by_cases hr : r.accessToken = ""
        · exact ⟨r, by simp [getToken, hi, hr], hr⟩
        · simp [getToken, hi, hr] at h
    | some a =>
      cases hs : env.silent with
      | error e =>
        cases hi : env.interactive with
        | error e2 => simp [getToken, hs, hi] at h
        | ok r =>
          by_cases hr : r.accessToken = ""
          · exact ⟨r, by simp [getToken, hs, hi, hr], hr⟩
          · simp [getToken, hs, hi, hr] at h
      | ok ro =>
        cases ro with
        | none =>
          cases hi : env.interactive with
          | error e2 => simp [getToken, hs, hi] at h
          | ok r =>
            by_cases hr : r.accessToken = ""
            · exact ⟨r, by simp [getToken, hs, hi, hr], hr⟩
            · simp [getToken, hs, hi, hr] at h
        | some r =>
          by_cases hr : r.accessToken = ""
          · exact ⟨r, by simp [getToken, hs, hr], hr⟩
          · simp [getToken, hs, hr] at h

/-- C6, witness: concrete environments exercising first-call interactive,
silent-success, silent-failure fallback, and the empty-token failure. -/
theorem claim_C6_witness :
    (getToken none ⟨Except.ok none, Except.ok ⟨"tok", some 1⟩⟩).interactiveCalls = 1 ∧
    (getToken none ⟨Except.ok none, Except.ok ⟨"tok", some 1⟩⟩).accountAfter = some 1 ∧
    (getToken (some 1) ⟨Except.ok (some ⟨"t2", some 1⟩),
        Except.ok ⟨"tok", some 1⟩⟩).interactiveCalls = 0 ∧
    (getToken (some 1) ⟨Except.error (),
        Except.ok ⟨"tok", some 2⟩⟩).interactiveCalls = 1 ∧
    ∃ r, (getToken (some 1) ⟨Except.ok (some ⟨"", some 1⟩),
        Except.ok ⟨"tok", some 1⟩⟩).finalAuthResult = some r ∧ r.accessToken = "" :=
  ⟨(claim_C6_interactive_flow.1 ⟨Except.ok none, Except.ok ⟨"tok", some 1⟩⟩).2,
   claim_C6_interactive_flow.2.1 ⟨Except.ok none, Except.ok ⟨"tok", some 1⟩⟩
     ⟨"tok", some 1⟩ rfl,
   claim_C6_interactive_flow.2.2.2.1 1
     ⟨Except.ok (some ⟨"t2", some 1⟩), Except.ok ⟨"tok", some 1⟩⟩ ⟨"t2", some 1⟩ rfl,
   claim_C6_interactive_flow.2.2.2.2.1 1
     ⟨Except.error (), Except.ok ⟨"tok", some 2⟩⟩ (Or.inl rfl),
   claim_C6_interactive_flow.2.2.2.2.2 (some 1)
     ⟨Except.ok (some ⟨"", some 1⟩), Except.ok ⟨"tok", some 1⟩⟩ (by decide)⟩

/-- C7, counterexample.  The claim says the CLI identity is chained
before the generic source whenever a tenant id is supplied in
service-chain mode.  In "env" mode with a tenant id supplied, the code
(`if (tenantId && type === "azcli")`) builds the chain WITHOUT the CLI
source. -/
theorem claim_C7_counterexample :
    createAuthenticator "env" (some "tenant") none =
      Except.ok (Backend.serviceChain [CredSource.defaultCred]) ∧
    Backend.serviceChain [CredSource.defaultCred] ≠
      Backend.serviceChain
        [CredSource.azureCli "tenant", CredSource.defaultCred] := by
  constructor
  · rfl
  · simp

/-- C7, amended.  The CLI identity is chained before the generic source
only in "azcli" mode with a non-empty tenant id; in "env" mode (and in
"azcli" mode without a tenant) the chain is the generic source alone.
The chain is tried in order, the first token obtained is returned, and
acquire fails with `AuthError` when the chain is exhausted with no
token. -/
theorem claim_C7_amended :
    (∀ (t : String) (opts : Option OboOptions), t ≠ "" →
      createAuthenticator "azcli" (some t) opts =
        Except.ok (Backend.serviceChain
          [CredSource.azureCli t, CredSource.defaultCred])) ∧
    (∀ (tenantId : Option String) (opts : Option OboOptions),
      createAuthenticator "env" tenantId opts =
        Except.ok (Backend.serviceChain [CredSource.defaultCred])) ∧
    (∀ (opts : Option OboOptions),
      createAuthenticator "azcli" none opts =
        Except.ok (Backend.serviceChain [CredSource.defaultCred])) ∧
    (∀ (env : CredSource → Option String) (s : CredSource)
        (rest : List CredSource) (tok : String),
      env s = some tok → chainGetToken env (s :: rest) = some tok) ∧
    (∀ (env : CredSource → Option String) (s : CredSource)
        (rest : List CredSource),
      env s = none → chainGetToken env (s :: rest) = chainGetToken env rest) ∧
    (∀ (env : CredSource → Option String) (sources : List CredSource)
        (tok : String),
      chainGetToken env sources = some tok →
      serviceChainAcquire env sources = Except.ok tok) ∧
    (∀ (env : CredSource → Option String) (sources : List CredSource),
      (∀ s ∈ sources, env s = none) →
      serviceChainAcquire env sources = Except.error AuthErr.authError) := by
  refine ⟨?_, ?_, ?_, ?_, ?_, ?_, ?_⟩
  · intro t opts h
    simp [createAuthenticator, truthy, h]
  · intro tenantId opts
    simp [createAuthenticator]
  · intro opts
    simp [createAuthenticator, truthy]
  · intro env s rest tok h
    simp [chainGetToken, h]
  · intro env s rest h
    simp [chainGetToken, h]
  · intro env sources tok h
    simp [serviceChainAcquire, h]
  · intro env sources h
    have hnone : chainGetToken env sources = none := by
      induction sources with
      | nil => rfl
      | cons s rest ih =>
        have hs := h s (List.mem_cons_self s rest)
        simp [chainGetToken, hs]
        exact ih (fun x hx => h x (List.mem_cons_of_mem s hx))
    simp [serviceChainAcquire, hnone]

/-- C7, witness: azcli with tenant builds the two-source chain; the chain
falls through a failing CLI source to the generic source; an exhausted
chain fails. -/
theorem claim_C7_witness :
    createAuthenticator "azcli" (some "tenant") none =
      Except.ok (Backend.serviceChain
        [CredSource.azureCli "tenant", CredSource.defaultCred]) ∧
    serviceChainAcquire
      (fun s => match s with
        | CredSource.azureCli _ => none
        | CredSource.defaultCred => some "amb")
      [CredSource.azureCli "tenant", CredSource.defaultCred] = Except.ok "amb" ∧
    serviceChainAcquire (fun _ => none)
      [CredSource.azureCli "tenant", CredSource.defaultCred] =
      Except.error AuthErr.authError :=
  ⟨claim_C7_amended.1 "tenant" none (by decide),
   claim_C7_amended.2.2.2.2.2.1 _ _ "amb" rfl,
   claim_C7_amended.2.2.2.2.2.2 _ _ (by intro s hs; rcases hs with _ | _ <;> rfl)⟩

/-- C8 (confirmed).  Session lifecycle: the close handler removes the
closing transport session id from the registry; a continuation request
mutates nothing; the POST request-handling code never removes a registry
entry (establishment only adds under the fresh generated id); a transport
assigned session id survives every event other than a re-initialization
of that same transport; and along any trace following a close, the closed
session id stays out of the registry as long as no later initialization
reuses it (UUID freshness). -/
theorem claim_C8_session_lifecycle :
    (∀ (st : SessState) (tid : Nat) (sid : String),
      lookupAssigned st.assigned tid = some sid →
      lookupReg (sessStep st (SessEvent.close tid)).transports sid = none) ∧
    (∀ (st : SessState) (sid : String),
      sessStep st (SessEvent.request sid) = st) ∧
    (∀ (mode : AuthMode) (throws : Bool) (gensid : String) (st : ServerState)
        (req : HttpRequest) (sid : String) (tid : Nat),
      lookupReg st.transports sid = some tid → gensid ≠ sid →
      lookupReg (handlePost mode throws gensid st req).2.transports sid = some tid) ∧
    (∀ (st : SessState) (e : SessEvent) (tid : Nat) (sid : String),
      lookupAssigned st.assigned tid = some sid →
      (∀ sid', e ≠ SessEvent.init tid sid') →
      lookupAssigned (sessStep st e).assigned tid = some sid) ∧
    (∀ (st : SessState) (es : List SessEvent) (tid : Nat) (sid : String),
      lookupAssigned st.assigned tid = some sid →
      (∀ tid', SessEvent.init tid' sid ∉ es) →
      lookupReg (sessRun st (SessEvent.close tid :: es)).transports sid = none) := by
  refine ⟨?_, ?_, ?_, ?_, ?_⟩
  · intro st tid sid h
    simp [sessStep, h, lookupReg_eraseReg_self]
  · intro st sid
    rfl
  · intro mode throws gensid st req sid tid hlook hne
    by_cases hc : mode = AuthMode.obo ∧ truthy (bearerToken req.authHeader) = false
    · obtain ⟨hm, htok⟩ := hc
      subst hm
      rw [handlePost_oboReject throws gensid st req htok]
      exact hlook
    · rw [handlePost_transports mode throws gensid st req hc]
      cases hroute : routeDecision st.transports req.sessionHeader req.body <;>
        simp [hroute, hlook,
          lookupReg_insertReg_ne st.transports gensid st.nextTransportId sid hne]
  · intro st e tid sid h hne
    cases e with
    | init tid' sid' =>
      have htid : tid' ≠ tid := fun hh => hne sid' (by rw [hh])
      simp [sessStep, lookupAssigned, htid, h]
    | close tid' =>
      cases lookupAssigned st.assigned tid' <;> simp [sessStep, h]
    | request s => simpa [sessStep] using h
  · intro st es tid sid h hno
    have h1 : lookupReg (sessStep st (SessEvent.close tid)).transports sid = none := by
      simp [sessStep, h, lookupReg_eraseReg_self]
    simpa [sessRun] using
      sessRun_preserves_absent es (sessStep st (SessEvent.close tid)) sid h1 hno

/-- C8, witness: each lifecycle property at a concrete registry and
trace. -/
theorem claim_C8_witness :
    lookupReg (sessStep ⟨[("a", 0)], [(0, "a")]⟩ (SessEvent.close 0)).transports "a" =
      none ∧
    sessStep ⟨[("a", 0)], [(0, "a")]⟩ (SessEvent.request "a") =
      (⟨[("a", 0)], [(0, "a")]⟩ : SessState) ∧
    lookupReg (handlePost AuthMode.interactive false "fresh" ⟨[("a", 0)], none, 1⟩
        ⟨none, none, some ⟨some "initialize"⟩⟩).2.transports "a" = some 0 ∧
    lookupAssigned (sessStep ⟨[("a", 0)], [(0, "a")]⟩
        (SessEvent.init 1 "b")).assigned 0 = some "a" ∧
    lookupReg (sessRun ⟨[("a", 0), ("b", 1)], [(0, "a"), (1, "b")]⟩
        [SessEvent.close 0, SessEvent.init 2 "c", SessEvent.request "b"]).transports
        "a" = none := by
  refine ⟨?_, ?_, ?_, ?_, ?_⟩
  · exact claim_C8_session_lifecycle.1 ⟨[("a", 0)], [(0, "a")]⟩ 0 "a" (by decide)
  · exact claim_C8_session_lifecycle.2.1 ⟨[("a", 0)], [(0, "a")]⟩ "a"
  · exact claim_C8_session_lifecycle.2.2.1 AuthMode.interactive false "fresh"
      ⟨[("a", 0)], none, 1⟩ ⟨none, none, some ⟨some "initialize"⟩⟩ "a" 0
      (by decide) (by decide)
  · exact claim_C8_session_lifecycle.2.2.2.1 ⟨[("a", 0)], [(0, "a")]⟩
      (SessEvent.init 1 "b") 0 "a" (by decide) (by intro sid' hh; cases hh)
  · exact claim_C8_session_lifecycle.2.2.2.2 ⟨[("a", 0), ("b", 1)], [(0, "a"), (1, "b")]⟩
      [SessEvent.init 2 "c", SessEvent.request "b"] 0 "a" (by decide)
      (by intro tid'; simp)

/-- C9 (confirmed).  In on-behalf-of mode a POST whose Authorization
header carries no truthy bearer value is answered with the plain 400
(`oboReject`, a response distinct from every `-32000` protocol
rejection), and the handler returns with the server state completely
unchanged — no session is created and the registry is untouched, even
when the body is an initialize handshake. -/
theorem claim_C9_obo_missing_bearer (throws : Bool) (gensid : String)
    (st : ServerState) (req : HttpRequest)
    (h : truthy (bearerToken req.authHeader) = false) :
    (handlePost AuthMode.obo throws gensid st req).1 = PostResponse.oboReject ∧
    (handlePost AuthMode.obo throws gensid st req).2 = st ∧
    (∀ (code : Int) (b : Bool),
      PostResponse.oboReject ≠ PostResponse.protocolReject code b) := by
  refine ⟨?_, ?_, ?_⟩
  · simp [handlePost, h]
  · simp [handlePost, h]
  · intro code b
    simp

/-- C9, witness: an obo request with no Authorization header and an
initialize body is rejected with the state unchanged. -/
theorem claim_C9_witness :
    (handlePost AuthMode.obo false "g"
        ⟨[("s", 0)], none, 1⟩ ⟨none, none, some ⟨some "initialize"⟩⟩).1 =
      PostResponse.oboReject ∧
    (handlePost AuthMode.obo false "g"
        ⟨[("s", 0)], none, 1⟩ ⟨none, none, some ⟨some "initialize"⟩⟩).2 =
      (⟨[("s", 0)], none, 1⟩ : ServerState) := by
  have h := claim_C9_obo_missing_bearer false "g" ⟨[("s", 0)], none, 1⟩
    ⟨none, none, some ⟨some "initialize"⟩⟩ (by decide)
  exact ⟨h.1, h.2.1⟩

/-- C10 (confirmed).  Every authentication-type string other than
"azcli", "env", "external" and "obo" — including the empty string and
misspellings — falls to the `default:` case of `createAuthenticator` and
silently selects the InteractiveDelegated backend instead of failing with
a configuration error. -/
theorem claim_C10_default_interactive (t : String) (tenantId : Option String)
    (opts : Option OboOptions)
    (h : t ≠ "azcli" ∧ t ≠ "env" ∧ t ≠ "external" ∧ t ≠ "obo") :
    createAuthenticator t tenantId opts = Except.ok Backend.interactive := by
  obtain ⟨h1, h2, h3, h4⟩ := h
  simp [createAuthenticator, h1, h2, h3, h4]

/-- C10, witness: the misspelled mode "oboo" and the empty string both
select the interactive backend. -/
theorem claim_C10_witness :
    createAuthenticator "oboo" none none = Except.ok Backend.interactive ∧
    createAuthenticator "" (some "tenant") (some ⟨some "id", some "sec"⟩) =
      Except.ok Backend.interactive :=
  ⟨claim_C10_default_interactive "oboo" none none (by decide),
   claim_C10_default_interactive "" (some "tenant") (some ⟨some "id", some "sec"⟩)
     (by decide)⟩
